import Mathlib

/-!
Shallow embedding of the dock behavior core of `dock.py`:
the edge-relative geometry engine, the auto-hide controller,
the settings / button persistence logic and the action dispatcher.
Coordinates are integers (Qt geometry is integral); Python floor
division `// 2` is integer `/ 2` (Euclidean division), the two agree
for the positive literal divisor 2.
-/

/-- Screen edges; the source uses the string constants
EDGE_TOP/'top', EDGE_BOTTOM/'bottom', EDGE_LEFT/'left', EDGE_RIGHT/'right'. -/
inductive Edge where
  | top
  | bottom
  | left
  | right
  deriving DecidableEq, Repr

/-- A QRect-style rectangle: position and size in screen coordinates. -/
structure Rect where
  x : Int
  y : Int
  w : Int
  h : Int
  deriving DecidableEq, Repr

/-- The screen geometry as the source consumes it: the code only reads
`screen.width()` and `screen.height()` of the primary screen. -/
structure ScreenGeom where
  w : Int
  h : Int
  deriving DecidableEq, Repr

/-- `DockWindow.get_hidden_geometry`: start from the current geometry's
`x, y`, overwrite the main-axis coordinate so that the dock sits almost
fully off-screen, keep the current width and height. -/
def get_hidden_geometry (edge : Edge) (screen : ScreenGeom) (current : Rect) : Rect :=
  match edge with
  | .left => { x := -current.w + 5, y := current.y, w := current.w, h := current.h }
  | .right => { x := screen.w - 5, y := current.y, w := current.w, h := current.h }
  | .top => { x := current.x, y := -current.h + 5, w := current.w, h := current.h }
  | .bottom => { x := current.x, y := screen.h - 5, w := current.w, h := current.h }

/-- `DockWindow.get_visible_geometry` (the same formula as `place_dock`):
center on the cross axis, sit `dock_offset` from the docked edge on the
main axis. -/
def get_visible_geometry (edge : Edge) (dock_offset w h : Int)
    (screen : ScreenGeom) : Rect :=
  let is_horizontal : Bool := edge = Edge.top || edge = Edge.bottom
  { x := if is_horizontal then (screen.w - w) / 2
         else if edge = Edge.left then dock_offset
         else screen.w - w - dock_offset,
    y := if !is_horizontal then (screen.h - h) / 2
         else if edge = Edge.top then dock_offset
         else screen.h - h - dock_offset,
    w := w,
    h := h }

/-- The dock's extent along its axis of motion (x for left/right, y for
top/bottom). -/
def mainExtent (edge : Edge) (r : Rect) : Int :=
  match edge with
  | .left | .right => r.w
  | .top | .bottom => r.h

/-- The dock's coordinate along its axis of motion. -/
def mainStart (edge : Edge) (r : Rect) : Int :=
  match edge with
  | .left | .right => r.x
  | .top | .bottom => r.y

/-- The dock's coordinate on the cross axis (perpendicular to the motion). -/
def crossCoord (edge : Edge) (r : Rect) : Int :=
  match edge with
  | .left | .right => r.y
  | .top | .bottom => r.x

/-- The dock's extent on the cross axis. -/
def crossExtent (edge : Edge) (r : Rect) : Int :=
  match edge with
  | .left | .right => r.h
  | .top | .bottom => r.w

/-- The screen's extent along the dock's axis of motion. -/
def screenMain (edge : Edge) (s : ScreenGeom) : Int :=
  match edge with
  | .left | .right => s.w
  | .top | .bottom => s.h

/-- The screen's extent on the cross axis. -/
def screenCross (edge : Edge) (s : ScreenGeom) : Int :=
  match edge with
  | .left | .right => s.h
  | .top | .bottom => s.w

/-- Length of the intersection of the half-open interval `[a, a+len)`
with `[0, hi)`. -/
def overlapLen (hi a len : Int) : Int :=
  max 0 (min hi (a + len) - max 0 a)

/-- How much of the rectangle `r` lies inside the screen along the
dock's axis of motion. -/
def mainOverlap (edge : Edge) (screen : ScreenGeom) (r : Rect) : Int :=
  overlapLen (screenMain edge screen) (mainStart edge r) (mainExtent edge r)

/-- C2: the claim as stated (for every dock rectangle) is false: with a
dock only 3 units wide on the left edge, the hidden rectangle keeps all
3 units inside the screen, not 5. -/
theorem c2_counterexample :
    ¬ (mainOverlap Edge.left { w := 100, h := 100 }
        (get_hidden_geometry Edge.left { w := 100, h := 100 }
          { x := 0, y := 0, w := 3, h := 50 }) = 5) := by
  decide

/-- C2 (amended): whenever the dock's main-axis extent and the screen's
main-axis extent are each at least 5, the hidden rectangle produced by
`get_hidden_geometry` keeps exactly 5 units of the dock inside the screen
on the main axis, keeps the cross-axis coordinate of the rectangle passed
in, and takes width and height from that rectangle. -/
theorem c2_hidden_geometry (edge : Edge) (screen : ScreenGeom) (current : Rect)
    (h1 : 5 ≤ mainExtent edge current) (h2 : 5 ≤ screenMain edge screen) :
    mainOverlap edge screen (get_hidden_geometry edge screen current) = 5
    ∧ crossCoord edge (get_hidden_geometry edge screen current) = crossCoord edge current
    ∧ (get_hidden_geometry edge screen current).w = current.w
    ∧ (get_hidden_geometry edge screen current).h = current.h := by
  cases edge <;>
    simp [mainOverlap, overlapLen, mainStart, mainExtent, crossCoord,
      screenMain, get_hidden_geometry] at h1 h2 ⊢ <;>
    omega

/-- C2 witness: a concrete left-edge instance of `c2_hidden_geometry`. -/
theorem c2_hidden_geometry_witness :
    (5 ≤ mainExtent Edge.left { x := 10, y := 200, w := 60, h := 300 }
      ∧ 5 ≤ screenMain Edge.left { w := 1920, h := 1080 })
    ∧ (mainOverlap Edge.left { w := 1920, h := 1080 }
        (get_hidden_geometry Edge.left { w := 1920, h := 1080 }
          { x := 10, y := 200, w := 60, h := 300 }) = 5
      ∧ crossCoord Edge.left
          (get_hidden_geometry Edge.left { w := 1920, h := 1080 }
            { x := 10, y := 200, w := 60, h := 300 })
        = crossCoord Edge.left { x := 10, y := 200, w := 60, h := 300 }
      ∧ (get_hidden_geometry Edge.left { w := 1920, h := 1080 }
          { x := 10, y := 200, w := 60, h := 300 }).w
        = Rect.w { x := 10, y := 200, w := 60, h := 300 }
      ∧ (get_hidden_geometry Edge.left { w := 1920, h := 1080 }
          { x := 10, y := 200, w := 60, h := 300 }).h
        = Rect.h { x := 10, y := 200, w := 60, h := 300 }) :=
  ⟨⟨by decide, by decide⟩,
    c2_hidden_geometry Edge.left { w := 1920, h := 1080 }
      { x := 10, y := 200, w := 60, h := 300 } (by decide) (by decide)⟩

/-- C5: the claim as stated (for all widths) is false: a dock 10 wide on
the top edge of a 4-wide screen is centered at x = -3, outside the screen. -/
theorem c5_counterexample :
    ¬ (0 ≤ crossCoord Edge.top (get_visible_geometry Edge.top 0 10 10 { w := 4, h := 100 })
      ∧ crossCoord Edge.top (get_visible_geometry Edge.top 0 10 10 { w := 4, h := 100 })
          + crossExtent Edge.top (get_visible_geometry Edge.top 0 10 10 { w := 4, h := 100 })
        ≤ screenCross Edge.top { w := 4, h := 100 }) := by
  decide

/-- C5 (amended): whenever the dock's cross-axis extent is non-negative
and at most the screen's cross-axis extent, the visible rectangle is
centered on the cross axis as `(screenSpan - dockSpan) / 2` (floor), lies
fully within the screen on the cross axis, and sits exactly `offset`
units from the docked boundary on the main axis (near boundary plus
`offset` for top/left, far boundary minus dock extent minus `offset` for
bottom/right); width and height are the ones passed in. -/
theorem c5_visible_geometry (edge : Edge) (offset w h : Int) (screen : ScreenGeom)
    (r : Rect) (hr : r = get_visible_geometry edge offset w h screen)
    (h0 : 0 ≤ crossExtent edge r) (h1 : crossExtent edge r ≤ screenCross edge screen) :
    crossCoord edge r = (screenCross edge screen - crossExtent edge r) / 2
    ∧ 0 ≤ crossCoord edge r
    ∧ crossCoord edge r + crossExtent edge r ≤ screenCross edge screen
    ∧ mainStart edge r = (match edge with
        | .left | .top => offset
        | .right | .bottom => screenMain edge screen - mainExtent edge r - offset)
    ∧ r.w = w ∧ r.h = h := by
  subst hr
  cases edge <;>
    simp [crossCoord, crossExtent, screenCross, screenMain, mainStart, mainExtent,
      get_visible_geometry] at h0 h1 ⊢ <;>
    omega

/-- C5 witness: a concrete left-edge instance of `c5_visible_geometry`. -/
theorem c5_visible_geometry_witness :
    (0 ≤ crossExtent Edge.left (get_visible_geometry Edge.left 10 60 300 { w := 1920, h := 1080 })
      ∧ crossExtent Edge.left (get_visible_geometry Edge.left 10 60 300 { w := 1920, h := 1080 })
        ≤ screenCross Edge.left { w := 1920, h := 1080 })
    ∧ (crossCoord Edge.left (get_visible_geometry Edge.left 10 60 300 { w := 1920, h := 1080 })
        = (screenCross Edge.left { w := 1920, h := 1080 }
            - crossExtent Edge.left (get_visible_geometry Edge.left 10 60 300 { w := 1920, h := 1080 })) / 2
      ∧ 0 ≤ crossCoord Edge.left (get_visible_geometry Edge.left 10 60 300 { w := 1920, h := 1080 })
      ∧ crossCoord Edge.left (get_visible_geometry Edge.left 10 60 300 { w := 1920, h := 1080 })
          + crossExtent Edge.left (get_visible_geometry Edge.left 10 60 300 { w := 1920, h := 1080 })
        ≤ screenCross Edge.left { w := 1920, h := 1080 }
      ∧ mainStart Edge.left (get_visible_geometry Edge.left 10 60 300 { w := 1920, h := 1080 })
        = (match Edge.left with
            | .left | .top => (10 : Int)
            | .right | .bottom =>
                screenMain Edge.left { w := 1920, h := 1080 }
                  - mainExtent Edge.left (get_visible_geometry Edge.left 10 60 300 { w := 1920, h := 1080 }) - 10)
      ∧ (get_visible_geometry Edge.left 10 60 300 { w := 1920, h := 1080 }).w = 60
      ∧ (get_visible_geometry Edge.left 10 60 300 { w := 1920, h := 1080 }).h = 300) :=
  ⟨⟨by decide, by decide⟩,
    c5_visible_geometry Edge.left 10 60 300 { w := 1920, h := 1080 }
      (get_visible_geometry Edge.left 10 60 300 { w := 1920, h := 1080 }) rfl
      (by decide) (by decide)⟩

/-- One row of the settings dialog's buttons table, and equally one
persisted button descriptor: name, icon reference, action string. -/
structure BtnRow where
  name : String
  icon : String
  action : String
  deriving DecidableEq, Repr

/-- The characters Python's `str.strip()` / `str.split()` treat as
whitespace (ASCII range). -/
def isPySpace (c : Char) : Bool :=
  c == ' ' || c == '\t' || c == '\n' || c == '\r' || c == '\x0b' || c == '\x0c'

/-- Python `s.strip()`. -/
def pyStrip (s : String) : String :=
  String.mk (((s.data.dropWhile isPySpace).reverse.dropWhile isPySpace).reverse)

/-- Python `s.split()` (no separator): split on whitespace runs,
dropping empty pieces. -/
def pySplit (s : String) : List String :=
  (s.split (fun c => isPySpace c)).filter (fun piece => piece ≠ "")

/-- Truthiness of `not name.strip()`: the string is empty or all
whitespace. -/
def stripIsEmpty (s : String) : Bool :=
  s.data.all isPySpace

/-- `SettingsDialog.save_buttons`: walk the table rows in order, skip a
row whose name strips to empty, and rebuild a descriptor from the kept
row's cells. -/
def save_buttons : List BtnRow → List BtnRow
  | [] => []
  | row :: rest =>
    if stripIsEmpty row.name then save_buttons rest
    else { name := row.name, icon := row.icon, action := row.action } :: save_buttons rest

/-- C8: persisting the button list drops exactly the rows whose name is
empty or whitespace (it equals a filter), is order-preserving (a sublist
of the input), and keeps a list of all non-blank names unchanged. -/
theorem c8_save_buttons (l : List BtnRow) :
    save_buttons l = l.filter (fun row => !stripIsEmpty row.name)
    ∧ List.Sublist (save_buttons l) l
    ∧ ((∀ row ∈ l, stripIsEmpty row.name = false) → save_buttons l = l) := by
  have hf : save_buttons l = l.filter (fun row => !stripIsEmpty row.name) := by
    induction l with
    | nil => rfl
    | cons r t ih =>
      cases hb : stripIsEmpty r.name <;> simp [save_buttons, hb, ih]
  refine ⟨hf, ?_, ?_⟩
  · rw [hf]
    exact List.filter_sublist l
  · intro h
    rw [hf]
    exact List.filter_eq_self.mpr (fun r hr => by simp [h r hr])

/-- C8 witness: a list whose single entry has a non-blank name is
persisted unchanged. -/
theorem c8_save_buttons_witness :
    save_buttons [{ name := "Files", icon := "icon.png", action := "explorer" }]
      = [{ name := "Files", icon := "icon.png", action := "explorer" }] :=
  (c8_save_buttons [{ name := "Files", icon := "icon.png", action := "explorer" }]).2.2
    (by decide)

/-- `SettingsDialog.move_button_up`: guarded by `row > 0`; reads the row
and the one above it, then writes each into the other's slot. `none`
models the uncaught exception when a guarded-in row does not exist. -/
def move_button_up (row : Nat) (l : List BtnRow) : Option (List BtnRow) :=
  if 0 < row then
    match l[row]?, l[row - 1]? with
    | some current_data, some above_data =>
        some ((l.set row above_data).set (row - 1) current_data)
    | _, _ => none
  else
    some l

/-- `SettingsDialog.move_button_down`: guarded by
`row < rowCount - 1`; reads the row and the one below it, then writes
each into the other's slot. -/
def move_button_down (row : Nat) (l : List BtnRow) : Option (List BtnRow) :=
  if row < l.length - 1 then
    match l[row]?, l[row + 1]? with
    | some current_data, some below_data =>
        some ((l.set row below_data).set (row + 1) current_data)
    | _, _ => none
  else
    some l

/-- C9: `move_button_up` at index 0 and `move_button_down` at the last
index are no-ops returning the list unchanged; at any non-boundary index
they swap the entry with its predecessor (resp. successor) and leave
every other position unchanged. -/
theorem c9_move_buttons (l : List BtnRow) :
    move_button_up 0 l = some l
    ∧ move_button_down (l.length - 1) l = some l
    ∧ (∀ i, 0 < i → i < l.length →
        ∃ l', move_button_up i l = some l'
          ∧ l'.length = l.length
          ∧ l'[i]? = l[i - 1]?
          ∧ l'[i - 1]? = l[i]?
          ∧ ∀ j, j ≠ i → j ≠ i - 1 → l'[j]? = l[j]?)
    ∧ (∀ i, i + 1 < l.length →
        ∃ l', move_button_down i l = some l'
          ∧ l'.length = l.length
          ∧ l'[i]? = l[i + 1]?
          ∧ l'[i + 1]? = l[i]?
          ∧ ∀ j, j ≠ i → j ≠ i + 1 → l'[j]? = l[j]?) := by
  refine ⟨by simp [move_button_up], by simp [move_button_down], ?_, ?_⟩
  · intro i h0 hi
    have h1 : i - 1 < l.length := by omega
    have e1 : l[i]? = some (l.get ⟨i, hi⟩) := List.getElem?_eq_getElem hi
    have e2 : l[i - 1]? = some (l.get ⟨i - 1, h1⟩) := List.getElem?_eq_getElem h1
    refine ⟨(l.set i (l.get ⟨i - 1, h1⟩)).set (i - 1) (l.get ⟨i, hi⟩), ?_, ?_, ?_, ?_, ?_⟩
    · simp [move_button_up, h0, e1, e2]
    · simp
    · rw [List.getElem?_set_ne (show i - 1 ≠ i by omega),
        List.getElem?_set_self hi, e2]
    · rw [List.getElem?_set_self (by simpa using h1), e1]
    · intro j hji hjp
      rw [List.getElem?_set_ne (fun heq => hjp heq.symm),
        List.getElem?_set_ne (fun heq => hji heq.symm)]
  · intro i hi
    have h1 : i < l.length := by omega
    have e1 : l[i]? = some (l.get ⟨i, h1⟩) := List.getElem?_eq_getElem h1
    have e2 : l[i + 1]? = some (l.get ⟨i + 1, hi⟩) := List.getElem?_eq_getElem hi
    refine ⟨(l.set i (l.get ⟨i + 1, hi⟩)).set (i + 1) (l.get ⟨i, h1⟩), ?_, ?_, ?_, ?_, ?_⟩
    · simp only [move_button_down]
      rw [if_pos (show i < l.length - 1 by omega), e1, e2]
    · simp
    · rw [List.getElem?_set_ne (show i + 1 ≠ i by omega),
        List.getElem?_set_self h1, e2]
    · rw [List.getElem?_set_self (by simpa using hi), e1]
    · intro j hji hjs
      rw [List.getElem?_set_ne (fun heq => hjs heq.symm),
        List.getElem?_set_ne (fun heq => hji heq.symm)]

/-- C9 witness: the swap behavior of `move_button_up` at index 1 of a
concrete two-element list. -/
theorem c9_move_buttons_witness :
    ∃ l', move_button_up 1 [{ name := "a", icon := "", action := "x" },
        { name := "b", icon := "", action := "y" }] = some l'
      ∧ l'.length = 2
      ∧ l'[1]? = some { name := "a", icon := "", action := "x" }
      ∧ l'[0]? = some { name := "b", icon := "", action := "y" }
      ∧ ∀ j, j ≠ 1 → j ≠ 0 → l'[j]? =
          ([{ name := "a", icon := "", action := "x" },
            { name := "b", icon := "", action := "y" }] : List BtnRow)[j]? := by
  obtain ⟨l', h1, h2, h3, h4, h5⟩ :=
    (c9_move_buttons [{ name := "a", icon := "", action := "x" },
      { name := "b", icon := "", action := "y" }]).2.2.1 1 (by decide) (by decide)
  exact ⟨l', h1, h2, h3, h4, h5⟩

/-- A parsed `settings.json` document: each of the nine keys may be
absent. `border_width` is a JSON number (the dialog writes
`slider / 2.0`), so it is modelled as a rational. -/
structure SettingsDoc where
  dock_position : Option String
  transparency : Option Int
  dock_color : Option String
  corner_radius : Option Int
  icon_size : Option Int
  layout_spacing : Option Int
  dock_offset : Option Int
  border_width : Option ℚ
  border_color : Option String
  deriving DecidableEq, Repr

/-- The nine settings attributes held in memory on the `DockWindow`
(`self.edge`, `self.transparency`, ...). -/
structure DockFields where
  edge : String
  transparency : Int
  dock_color : String
  corner_radius : Int
  icon_size : Int
  layout_spacing : Int
  dock_offset : Int
  border_width : ℚ
  border_color : String
  deriving DecidableEq, Repr

/-- `DockWindow.load_settings`, after the parse step: `dock_position`,
`transparency` and `dock_color` are read with `settings[...]` (an
uncaught `KeyError`, modelled as `none`, if absent); the remaining six
keys are read with `settings.get(..., default)`. -/
def load_settings (settings : SettingsDoc) : Option DockFields := do
  let pos ← settings.dock_position
  let tr ← settings.transparency
  let col ← settings.dock_color
  some { edge := pos, transparency := tr, dock_color := col,
         corner_radius := settings.corner_radius.getD 16,
         icon_size := settings.icon_size.getD 32,
         layout_spacing := settings.layout_spacing.getD 5,
         dock_offset := settings.dock_offset.getD 10,
         border_width := settings.border_width.getD 1,
         border_color := settings.border_color.getD "#FFFFFF" }

/-- `DockWindow.get_default_settings`: the documented defaults written
on first start. -/
def get_default_settings : SettingsDoc :=
  { dock_position := some "left",
    transparency := some 60,
    corner_radius := some 16,
    dock_color := some "#000000",
    icon_size := some 32,
    layout_spacing := some 5,
    dock_offset := some 10,
    border_width := some 1,
    border_color := some "#FFFFFF" }

/-- C3: the claim as stated is false: a document that parses but omits
`dock_position` (here, omits every key) makes `load_settings` raise a
`KeyError` instead of falling back to defaults. -/
theorem c3_counterexample :
    load_settings
      { dock_position := none, transparency := none, dock_color := none,
        corner_radius := none, icon_size := none, layout_spacing := none,
        dock_offset := none, border_width := none, border_color := none }
      = none := by
  rfl

/-- C3 (amended): when `dock_position`, `transparency` and `dock_color`
are present, loading succeeds; each of the six other keys, when missing,
individually falls back to its documented default (the value in
`get_default_settings`), and each present key is carried through
unchanged. A document missing any of the three required keys fails to
load. -/
theorem c3_load_settings (doc : SettingsDoc)
    (h1 : doc.dock_position.isSome) (h2 : doc.transparency.isSome)
    (h3 : doc.dock_color.isSome) :
    ∃ s, load_settings doc = some s
      ∧ (doc.corner_radius = none → some s.corner_radius = get_default_settings.corner_radius)
      ∧ (doc.icon_size = none → some s.icon_size = get_default_settings.icon_size)
      ∧ (doc.layout_spacing = none → some s.layout_spacing = get_default_settings.layout_spacing)
      ∧ (doc.dock_offset = none → some s.dock_offset = get_default_settings.dock_offset)
      ∧ (doc.border_width = none → some s.border_width = get_default_settings.border_width)
      ∧ (doc.border_color = none → some s.border_color = get_default_settings.border_color)
      ∧ (∀ v, doc.dock_position = some v → s.edge = v)
      ∧ (∀ v, doc.transparency = some v → s.transparency = v)
      ∧ (∀ v, doc.dock_color = some v → s.dock_color = v)
      ∧ (∀ v, doc.corner_radius = some v → s.corner_radius = v)
      ∧ (∀ v, doc.icon_size = some v → s.icon_size = v)
      ∧ (∀ v, doc.layout_spacing = some v → s.layout_spacing = v)
      ∧ (∀ v, doc.dock_offset = some v → s.dock_offset = v)
      ∧ (∀ v, doc.border_width = some v → s.border_width = v)
      ∧ (∀ v, doc.border_color = some v → s.border_color = v) := by
  obtain ⟨pos, hp⟩ := Option.isSome_iff_exists.mp h1
  obtain ⟨tr, ht⟩ := Option.isSome_iff_exists.mp h2
  obtain ⟨col, hc⟩ := Option.isSome_iff_exists.mp h3
  refine ⟨{ edge := pos, transparency := tr, dock_color := col,
            corner_radius := doc.corner_radius.getD 16,
            icon_size := doc.icon_size.getD 32,
            layout_spacing := doc.layout_spacing.getD 5,
            dock_offset := doc.dock_offset.getD 10,
            border_width := doc.border_width.getD 1,
            border_color := doc.border_color.getD "#FFFFFF" }, ?_,
    by intro h; simp [h, get_default_settings],
    by intro h; simp [h, get_default_settings],
    by intro h; simp [h, get_default_settings],
    by intro h; simp [h, get_default_settings],
    by intro h; simp [h, get_default_settings],
    by intro h; simp [h, get_default_settings],
    by intro v hv; rw [hp] at hv; simpa using hv,
    by intro v hv; rw [ht] at hv; simpa using hv,
    by intro v hv; rw [hc] at hv; simpa using hv,
    by intro v hv; simp [hv],
    by intro v hv; simp [hv],
    by intro v hv; simp [hv],
    by intro v hv; simp [hv],
    by intro v hv; simp [hv],
    by intro v hv; simp [hv]⟩
  simp [load_settings, hp, ht, hc]

/-- C3 witness: a document holding only the three required keys loads,
with every optional key defaulted. -/
theorem c3_load_settings_witness :
    ∃ s, load_settings
        { dock_position := some "left", transparency := some 60,
          dock_color := some "#000000", corner_radius := none, icon_size := none,
          layout_spacing := none, dock_offset := none, border_width := none,
          border_color := none }
        = some s
      ∧ (none = (none : Option Int) → some s.corner_radius = get_default_settings.corner_radius)
      ∧ (none = (none : Option Int) → some s.icon_size = get_default_settings.icon_size)
      ∧ (none = (none : Option Int) → some s.layout_spacing = get_default_settings.layout_spacing)
      ∧ (none = (none : Option Int) → some s.dock_offset = get_default_settings.dock_offset)
      ∧ (none = (none : Option ℚ) → some s.border_width = get_default_settings.border_width)
      ∧ (none = (none : Option String) → some s.border_color = get_default_settings.border_color)
      ∧ (∀ v, some "left" = some v → s.edge = v)
      ∧ (∀ v, some (60 : Int) = some v → s.transparency = v)
      ∧ (∀ v, some "#000000" = some v → s.dock_color = v)
      ∧ (∀ v, (none : Option Int) = some v → s.corner_radius = v)
      ∧ (∀ v, (none : Option Int) = some v → s.icon_size = v)
      ∧ (∀ v, (none : Option Int) = some v → s.layout_spacing = v)
      ∧ (∀ v, (none : Option Int) = some v → s.dock_offset = v)
      ∧ (∀ v, (none : Option ℚ) = some v → s.border_width = v)
      ∧ (∀ v, (none : Option String) = some v → s.border_color = v) :=
  c3_load_settings
    { dock_position := some "left", transparency := some 60,
      dock_color := some "#000000", corner_radius := none, icon_size := none,
      layout_spacing := none, dock_offset := none, border_width := none,
      border_color := none } rfl rfl rfl

/-- The part of the program state C4 is about: the nine in-memory
settings attributes on the `DockWindow` and the persisted
`settings.json` contents. -/
structure DockAppState where
  mem : DockFields
  disk : Option SettingsDoc
  deriving DecidableEq, Repr

/-- `DockWindow.apply_settings`: reassign all nine in-memory attributes
from the incoming document (required subscripts for `dock_position`,
`transparency`, `dock_color`; `.get` defaults for the rest) and call
`save_settings(settings)`, which overwrites the file with that same
full document. -/
def apply_settings (settings : SettingsDoc) (_st : DockAppState) : Option DockAppState :=
  match load_settings settings with
  | some fields => some { mem := fields, disk := some settings }
  | none => none

/-- `SettingsDialog._choose_color`, accepted branch: assigns
`self.parent.dock_color` directly; nothing is persisted. -/
def choose_color (c : String) (st : DockAppState) : DockAppState :=
  { st with mem := { st.mem with dock_color := c } }

/-- `SettingsDialog._choose_border_color`, accepted branch: assigns
`self.parent.border_color` directly; nothing is persisted. -/
def choose_border_color (c : String) (st : DockAppState) : DockAppState :=
  { st with mem := { st.mem with border_color := c } }

/-- The operations in the source (outside startup initialization) that
assign to any of the nine settings attributes: `apply_settings`
(lines 1035-1073) and the two color choosers (lines 458-484). -/
inductive SettingsOp where
  | applyOp (settings : SettingsDoc)
  | chooseColor (c : String)
  | chooseBorderColor (c : String)
  deriving DecidableEq, Repr

/-- Run one settings-mutating operation. -/
def runSettingsOp : SettingsOp → DockAppState → Option DockAppState
  | .applyOp settings, st => apply_settings settings st
  | .chooseColor c, st => some (choose_color c st)
  | .chooseBorderColor c, st => some (choose_border_color c st)

/-- C4: the claim as stated is false: `_choose_color` (an operation
other than apply) mutates the in-memory `dock_color` field directly. -/
theorem c4_counterexample :
    ¬ (∀ op st st', runSettingsOp op st = some st' →
        (∀ s, op ≠ SettingsOp.applyOp s) → st'.mem = st.mem) := by
  intro hclaim
  have h := hclaim (.chooseColor "#123456")
    { mem := { edge := "left", transparency := 60, dock_color := "#000000",
               corner_radius := 16, icon_size := 32, layout_spacing := 5,
               dock_offset := 10, border_width := 1, border_color := "#FFFFFF" },
      disk := none }
    _ rfl (fun s hs => SettingsOp.noConfusion hs)
  have hcol := congrArg DockFields.dock_color h
  exact absurd hcol (by decide)

/-- C4 (amended): `apply_settings` alone is atomic — it succeeds exactly
when the required keys decode (the same decoding as `load_settings`),
replacing the whole in-memory struct and persisting the same full
document in one step; the two color choosers additionally mutate exactly
the in-memory `dock_color` (resp. `border_color`) field, leaving every
other field and the persisted document untouched. -/
theorem c4_settings_mutation (st : DockAppState) (s : SettingsDoc) (c : String) :
    apply_settings s st
      = (load_settings s).map (fun fields => { mem := fields, disk := some s })
    ∧ ((choose_color c st).disk = st.disk
      ∧ (choose_color c st).mem.dock_color = c
      ∧ (choose_color c st).mem.edge = st.mem.edge
      ∧ (choose_color c st).mem.transparency = st.mem.transparency
      ∧ (choose_color c st).mem.corner_radius = st.mem.corner_radius
      ∧ (choose_color c st).mem.icon_size = st.mem.icon_size
      ∧ (choose_color c st).mem.layout_spacing = st.mem.layout_spacing
      ∧ (choose_color c st).mem.dock_offset = st.mem.dock_offset
      ∧ (choose_color c st).mem.border_width = st.mem.border_width
      ∧ (choose_color c st).mem.border_color = st.mem.border_color)
    ∧ ((choose_border_color c st).disk = st.disk
      ∧ (choose_border_color c st).mem.border_color = c
      ∧ (choose_border_color c st).mem.edge = st.mem.edge
      ∧ (choose_border_color c st).mem.transparency = st.mem.transparency
      ∧ (choose_border_color c st).mem.corner_radius = st.mem.corner_radius
      ∧ (choose_border_color c st).mem.icon_size = st.mem.icon_size
      ∧ (choose_border_color c st).mem.layout_spacing = st.mem.layout_spacing
      ∧ (choose_border_color c st).mem.dock_offset = st.mem.dock_offset
      ∧ (choose_border_color c st).mem.border_width = st.mem.border_width
      ∧ (choose_border_color c st).mem.dock_color = st.mem.dock_color) := by
  refine ⟨?_, by simp [choose_color], by simp [choose_border_color]⟩
  cases h : load_settings s <;> simp [apply_settings, h]

/-- The abstract auto-hide states of the specification. -/
inductive AutoHideState where
  | VISIBLE
  | HIDDEN
  | ANIMATING_IN
  | ANIMATING_OUT
  deriving DecidableEq, Repr

/-- The controller state of `DockWindow`: the `is_hidden` flag, the
single-shot `hide_timer` (absolute deadline when running), the geometry
animation (absolute completion time when running) and the
`settings_dialog_open` guard. Times are in milliseconds. -/
structure ControllerState where
  is_hidden : Bool
  timer_deadline : Option Nat
  anim_end : Option Nat
  dialog_open : Bool
  deriving DecidableEq, Repr

/-- `hide_timer.start(500)` delay. -/
def HIDE_DELAY : Nat := 500

/-- `animation.setDuration(300)`. -/
def ANIM_DURATION : Nat := 300

/-- `DockWindow.start_hide_animation` at time `t`: only when not hidden
and the settings dialog is not open, set `is_hidden` and start the
300 ms animation toward the hidden geometry. -/
def start_hide_animation (t : Nat) (s : ControllerState) : ControllerState :=
  if !s.is_hidden && !s.dialog_open then
    { s with is_hidden := true, anim_end := some (t + ANIM_DURATION) }
  else s

/-- `DockWindow.start_show_animation` at time `t`: only when hidden,
clear `is_hidden` and start the 300 ms animation toward the visible
geometry. -/
def start_show_animation (t : Nat) (s : ControllerState) : ControllerState :=
  if s.is_hidden then
    { s with is_hidden := false, anim_end := some (t + ANIM_DURATION) }
  else s

/-- `DockWindow.enterEvent`: stop the hide timer; if hidden, start the
show animation. -/
def enterEvent (t : Nat) (s : ControllerState) : ControllerState :=
  let s' := { s with timer_deadline := none }
  if s'.is_hidden then start_show_animation t s' else s'

/-- `DockWindow.leaveEvent`: (re)start the single-shot hide timer with a
500 ms delay. -/
def leaveEvent (t : Nat) (s : ControllerState) : ControllerState :=
  { s with timer_deadline := some (t + HIDE_DELAY) }

/-- `DockWindow.show_settings`, entry: set the dialog guard; if hidden,
start the show animation. -/
def show_settings (t : Nat) (s : ControllerState) : ControllerState :=
  let s' := { s with dialog_open := true }
  if s'.is_hidden then start_show_animation t s' else s'

/-- `DockWindow._on_settings_dialog_closed`. -/
def dialog_closed (s : ControllerState) : ControllerState :=
  { s with dialog_open := false }

/-- The single-shot timer firing at its deadline `d`: the timer becomes
inactive and its `timeout` slot `start_hide_animation` runs. -/
def fire_timer (d : Nat) (s : ControllerState) : ControllerState :=
  start_hide_animation d { s with timer_deadline := none }

/-- The animation reaching its end: the dock rests at its target
geometry. -/
def finish_animation (s : ControllerState) : ControllerState :=
  { s with anim_end := none }

/-- Deliver every timer/animation wakeup due at or before time `t`, in
deadline order (timer first on a tie). At most a timer shot, an
animation end, and the animation the timer starts can be pending, so
fuel 4 is never exhausted. -/
def fireDueAux : Nat → Nat → ControllerState → ControllerState
  | 0, _, s => s
  | fuel + 1, t, s =>
    match s.timer_deadline, s.anim_end with
    | none, none => s
    | some d, none => if d ≤ t then fireDueAux fuel t (fire_timer d s) else s
    | none, some a => if a ≤ t then fireDueAux fuel t (finish_animation s) else s
    | some d, some a =>
      if d ≤ t && d ≤ a then fireDueAux fuel t (fire_timer d s)
      else if a ≤ t then fireDueAux fuel t (finish_animation s)
      else if d ≤ t then fireDueAux fuel t (fire_timer d s)
      else s

/-- All internal wakeups due by time `t`. -/
def fireDue (t : Nat) (s : ControllerState) : ControllerState :=
  fireDueAux 4 t s

/-- The external events the controller reacts to. -/
inductive Ev where
  | enter
  | leave
  | dialogOpen
  | dialogClosed
  deriving DecidableEq, Repr

/-- Handle one external event at time `t`. -/
def handle (t : Nat) : Ev → ControllerState → ControllerState
  | .enter, s => enterEvent t s
  | .leave, s => leaveEvent t s
  | .dialogOpen, s => show_settings t s
  | .dialogClosed, s => dialog_closed s

/-- Run a timestamped event trace (times non-decreasing): before each
event, deliver the internal wakeups that came due. -/
def run (s : ControllerState) : List (Nat × Ev) → ControllerState
  | [] => s
  | (t, e) :: rest => run (handle t e (fireDue t s)) rest

/-- The abstract state at time `t`: deliver due wakeups, then read
`is_hidden` together with whether the animation is still running. -/
def observe (t : Nat) (s : ControllerState) : AutoHideState :=
  let s' := fireDue t s
  match s'.is_hidden, s'.anim_end with
  | false, none => .VISIBLE
  | false, some _ => .ANIMATING_IN
  | true, some _ => .ANIMATING_OUT
  | true, none => .HIDDEN

/-- The idle VISIBLE configuration: not hidden, no pending timer, no
running animation. -/
def visibleIdle (dialog : Bool) : ControllerState :=
  { is_hidden := false, timer_deadline := none, anim_end := none,
    dialog_open := dialog }

/-- C1: from idle VISIBLE, a leave at `t0` followed by an enter at
`t1 < t0 + 500` leaves the controller VISIBLE at every time during and
after the pair (never ANIMATING_OUT — the debounce timer is stopped);
from idle VISIBLE with no dialog, a leave at `t0` with no further events
shows ANIMATING_OUT at every time in `[t0+500, t0+800)` and HIDDEN from
`t0 + 800` on. -/
theorem c1_autohide (d : Bool) (t0 t1 t2 t3 t4 u : Nat)
    (h01 : t0 ≤ t1) (h1 : t1 < t0 + 500) (h12 : t1 ≤ t2)
    (hu0 : t0 ≤ u) (hu1 : u ≤ t1)
    (h3a : t0 + 500 ≤ t3) (h3b : t3 < t0 + 800) (h4 : t0 + 800 ≤ t4) :
    observe u (run (visibleIdle d) [(t0, .leave)]) = .VISIBLE
    ∧ observe t2 (run (visibleIdle d) [(t0, .leave), (t1, .enter)]) = .VISIBLE
    ∧ observe t3 (run (visibleIdle false) [(t0, .leave)]) = .ANIMATING_OUT
    ∧ observe t4 (run (visibleIdle false) [(t0, .leave)]) = .HIDDEN := by
  refine ⟨?_, ?_, ?_, ?_⟩
  · simp [run, handle, fireDue, fireDueAux, leaveEvent, enterEvent, visibleIdle,
      observe, HIDE_DELAY, ANIM_DURATION,
      show ¬ (t0 + 500 ≤ u) by omega]
  · simp [run, handle, fireDue, fireDueAux, leaveEvent, enterEvent, visibleIdle,
      observe, start_show_animation, HIDE_DELAY, ANIM_DURATION,
      show ¬ (t0 + 500 ≤ t1) by omega]
  · simp [run, handle, fireDue, fireDueAux, leaveEvent, fire_timer,
      start_hide_animation, finish_animation, visibleIdle, observe,
      HIDE_DELAY, ANIM_DURATION,
      show t0 + 500 ≤ t3 by omega, show ¬ (t0 + 500 + 300 ≤ t3) by omega]
  · simp [run, handle, fireDue, fireDueAux, leaveEvent, fire_timer,
      start_hide_animation, finish_animation, visibleIdle, observe,
      HIDE_DELAY, ANIM_DURATION,
      show t0 + 500 ≤ t4 by omega, show t0 + 500 + 300 ≤ t4 by omega]

/-- C1 witness: leave at 0 ms, enter at 100 ms stays VISIBLE; leave at
0 ms alone is ANIMATING_OUT at 600 ms and HIDDEN at 900 ms. -/
theorem c1_autohide_witness :
    ((0 : Nat) ≤ 100 ∧ 100 < 0 + 500 ∧ 100 ≤ 1000 ∧ (0 : Nat) ≤ 50 ∧ 50 ≤ 100
      ∧ 0 + 500 ≤ 600 ∧ 600 < 0 + 800 ∧ 0 + 800 ≤ 900)
    ∧ (observe 50 (run (visibleIdle false) [(0, .leave)]) = .VISIBLE
      ∧ observe 1000 (run (visibleIdle false) [(0, .leave), (100, .enter)]) = .VISIBLE
      ∧ observe 600 (run (visibleIdle false) [(0, .leave)]) = .ANIMATING_OUT
      ∧ observe 900 (run (visibleIdle false) [(0, .leave)]) = .HIDDEN) :=
  ⟨⟨by decide, by decide, by decide, by decide, by decide, by decide, by decide,
    by decide⟩,
    c1_autohide false 0 100 1000 600 900 50 (by decide) (by decide) (by decide)
      (by decide) (by decide) (by decide) (by decide) (by decide)⟩

/-- C7: with the dialog reported open at `t0` and a leave at `t1`, the
controller is VISIBLE at every later time `u` — in particular after the
full 500 ms debounce elapses (the guard suppresses the hide); after the
dialog is reported closed at `t2` and a fresh leave happens at `t3`, the
controller is ANIMATING_OUT once that debounce elapses. -/
theorem c7_dialog_guard (t0 t1 t2 t3 u v : Nat)
    (h01 : t0 ≤ t1) (h1u : t1 ≤ u)
    (h12 : t1 + 500 ≤ t2) (h23 : t2 ≤ t3)
    (hv1 : t3 + 500 ≤ v) (hv2 : v < t3 + 800) :
    observe u (run (visibleIdle false) [(t0, .dialogOpen), (t1, .leave)]) = .VISIBLE
    ∧ observe v (run (visibleIdle false)
        [(t0, .dialogOpen), (t1, .leave), (t2, .dialogClosed), (t3, .leave)])
      = .ANIMATING_OUT := by
  constructor
  · by_cases hc : t1 + 500 ≤ u
    · simp [run, handle, fireDue, fireDueAux, leaveEvent, show_settings, fire_timer,
        start_hide_animation, visibleIdle, observe, HIDE_DELAY, ANIM_DURATION, hc]
    · simp [run, handle, fireDue, fireDueAux, leaveEvent, show_settings, fire_timer,
        start_hide_animation, visibleIdle, observe, HIDE_DELAY, ANIM_DURATION, hc]
  · simp [run, handle, fireDue, fireDueAux, leaveEvent, show_settings, dialog_closed,
      fire_timer, start_hide_animation, finish_animation, visibleIdle, observe,
      HIDE_DELAY, ANIM_DURATION,
      show t1 + 500 ≤ t2 by omega, show t3 + 500 ≤ v by omega,
      show ¬ (t3 + 500 + 300 ≤ v) by omega]

/-- C7 witness: dialog open at 0 ms, leave at 10 ms, still VISIBLE at
2000 ms; dialog closed at 600 ms, fresh leave at 1500 ms, ANIMATING_OUT
at 2100 ms. -/
theorem c7_dialog_guard_witness :
    ((0 : Nat) ≤ 10 ∧ (10 : Nat) ≤ 2000 ∧ 10 + 500 ≤ 600 ∧ (600 : Nat) ≤ 1500
      ∧ 1500 + 500 ≤ 2100 ∧ 2100 < 1500 + 800)
    ∧ (observe 2000 (run (visibleIdle false) [(0, .dialogOpen), (10, .leave)]) = .VISIBLE
      ∧ observe 2100 (run (visibleIdle false)
          [(0, .dialogOpen), (10, .leave), (600, .dialogClosed), (1500, .leave)])
        = .ANIMATING_OUT) :=
  ⟨⟨by decide, by decide, by decide, by decide, by decide, by decide⟩,
    c7_dialog_guard 0 10 600 1500 2000 2100 (by decide) (by decide) (by decide)
      (by decide) (by decide) (by decide)⟩

/-- Python `s.startswith(pre)`. -/
def pyStartsWith (s pre : String) : Bool :=
  List.isPrefixOf pre.data s.data

/-- The OS facts `handle_button_click` consults: `os.path.expandvars`,
`Path(...).exists()`, and whether `subprocess.Popen(action.split(),
shell=False)` raises `FileNotFoundError`/`OSError`. -/
structure DispatchEnv where
  expandvars : String → String
  path_exists : String → Bool
  popen_direct_fails : String → Bool

/-- One launch attempt made by the dispatcher. -/
inductive LaunchAttempt where
  | browser (url : String)
  | startfile (path : String)
  | popen_direct (argv : List String)
  | popen_shell (cmd : String)
  deriving DecidableEq, Repr

/-- `DockWindow.handle_button_click`, as the ordered list of launch
attempts it makes: strip the action; if non-empty, a `http://`,
`https://` or `www.` prefix goes to the browser; otherwise an action
that (after environment-variable expansion) names an existing path goes
to `os.startfile`; otherwise a direct no-shell `Popen` of the
whitespace-split action, retried through the shell when the direct
launch raises. -/
def handle_button_click (env : DispatchEnv) (action_field : String) : List LaunchAttempt :=
  let action := pyStrip action_field
  if action ≠ "" then
    if pyStartsWith action "http://" || pyStartsWith action "https://"
        || pyStartsWith action "www." then
      [.browser action]
    else
      let expanded := env.expandvars action
      if env.path_exists expanded then
        [.startfile expanded]
      else
        if env.popen_direct_fails action then
          [.popen_direct (pySplit action), .popen_shell action]
        else
          [.popen_direct (pySplit action)]
  else
    []

/-- C6: dispatch classifies the stripped action in a fixed order with
first match winning: URL prefixes go to the browser; otherwise an
existing (after expansion) filesystem path goes to the OS default-open
call; otherwise the action is launched directly without a shell, and
exactly when that launch fails it is retried through the shell. -/
theorem c6_dispatch (env : DispatchEnv) (a act : String)
    (hact : act = pyStrip a) (hne : act ≠ "") :
    ((pyStartsWith act "http://" || pyStartsWith act "https://"
        || pyStartsWith act "www.") = true →
      handle_button_click env a = [.browser act])
    ∧ ((pyStartsWith act "http://" || pyStartsWith act "https://"
        || pyStartsWith act "www.") = false →
      env.path_exists (env.expandvars act) = true →
      handle_button_click env a = [.startfile (env.expandvars act)])
    ∧ ((pyStartsWith act "http://" || pyStartsWith act "https://"
        || pyStartsWith act "www.") = false →
      env.path_exists (env.expandvars act) = false →
      env.popen_direct_fails act = false →
      handle_button_click env a = [.popen_direct (pySplit act)])
    ∧ ((pyStartsWith act "http://" || pyStartsWith act "https://"
        || pyStartsWith act "www.") = false →
      env.path_exists (env.expandvars act) = false →
      env.popen_direct_fails act = true →
      handle_button_click env a = [.popen_direct (pySplit act), .popen_shell act]) := by
  subst hact
  refine ⟨fun h1 => ?_, fun h1 h2 => ?_, fun h1 h2 h3 => ?_, fun h1 h2 h3 => ?_⟩
  · simp [handle_button_click, hne, h1]
  · simp [handle_button_click, hne, h1, h2]
  · simp [handle_button_click, hne, h1, h2, h3]
  · simp [handle_button_click, hne, h1, h2, h3]

/-- C6 witness: with no matching URL prefix, no existing path, and a
failing direct launch, the dispatcher attempts the direct launch and
then the shell fallback. -/
theorem c6_dispatch_witness :
    ("nonexistent-cmd --flag" = pyStrip "nonexistent-cmd --flag"
      ∧ "nonexistent-cmd --flag" ≠ ""
      ∧ (pyStartsWith "nonexistent-cmd --flag" "http://"
          || pyStartsWith "nonexistent-cmd --flag" "https://"
          || pyStartsWith "nonexistent-cmd --flag" "www.") = false)
    ∧ handle_button_click
        { expandvars := fun s => s, path_exists := fun _ => false,
          popen_direct_fails := fun _ => true }
        "nonexistent-cmd --flag"
      = [.popen_direct (pySplit "nonexistent-cmd --flag"),
         .popen_shell "nonexistent-cmd --flag"] :=
  ⟨⟨by decide, by decide, by decide⟩,
    (c6_dispatch
      { expandvars := fun s => s, path_exists := fun _ => false,
        popen_direct_fails := fun _ => true }
      "nonexistent-cmd --flag" "nonexistent-cmd --flag" (by decide)
      (by decide)).2.2.2 (by decide) (by decide) (by decide)⟩

/-- C10: an action that is empty or all whitespace strips to the empty
string, and dispatching it makes no launch attempt at all. -/
theorem c10_blank_action (env : DispatchEnv) (a : String)
    (h : ∀ c ∈ a.data, isPySpace c) :
    handle_button_click env a = [] := by
  have h1 : a.data.dropWhile isPySpace = [] :=
    List.dropWhile_eq_nil_iff.mpr (fun c hc => h c hc)
  have hs : pyStrip a = "" := by
    simp [pyStrip, h1]
  simp [handle_button_click, hs]

/-- C10 witness: a three-space action is dispatched as a no-op. -/
theorem c10_blank_action_witness :
    (∀ c ∈ ("   " : String).data, isPySpace c)
    ∧ handle_button_click
        { expandvars := fun s => s, path_exists := fun _ => false,
          popen_direct_fails := fun _ => true }
        "   " = [] :=
  ⟨by decide,
    c10_blank_action
      { expandvars := fun s => s, path_exists := fun _ => false,
        popen_direct_fails := fun _ => true }
      "   " (by decide)⟩
